import Mathlib

/-!
Shallow embedding of the historical-cinema playback engine
(`HistoricalCinema3D` component and its helpers).

Modelling conventions:
* JavaScript strings are Lean `String`s; the builtins `trim`, `toLowerCase`
  and `includes` used by the source are embedded as `jsTrim`, `jsLower`
  and `strIncludes` (ASCII case folding, the only case appearing in the data).
* At runtime TypeScript union types are erased, so `Scene.cameraStyle` is a
  plain string dispatched on by the `switch` in `CameraRig`; the embedding
  keeps it as `String` together with the list `knownCameraStyles` of the six
  declared members, which lets the garbage-in behaviour of the `switch`
  default branch be stated.
* React state is collected in `PlaybackState`; each event handler of the
  component becomes a function `state → state × sink events`, where the sink
  events record the calls made to `window.speechSynthesis` (the Narration
  Sink).  The `useEffect` autoplay interval is modelled by a countdown
  `timer : Option Nat` in `SysState`, re-armed exactly when the effect's
  dependency list `[playing, autoplay, scenes, narration, locale]` changes
  (a successful `startShow` always installs a fresh array, hence always
  re-arms).
* The camera `useFrame` callback becomes `cameraStep` over real numbers;
  `Math.random()` draws for the handheld style are an injected triple.
-/

/-- ASCII whitespace removed by `String.prototype.trim` on the inputs that occur here. -/
def jsWhitespace (c : Char) : Bool :=
  c = ' ' || c = '\t' || c = '\n' || c = '\r'

/-- Embedding of `String.prototype.trim`. -/
def jsTrim (s : String) : String :=
  ⟨((s.data.dropWhile jsWhitespace).reverse.dropWhile jsWhitespace).reverse⟩

/-- ASCII case folding for one character, as `toLowerCase` acts on the data here. -/
def jsLowerChar (c : Char) : Char :=
  if 'A' ≤ c ∧ c ≤ 'Z' then Char.ofNat (c.toNat + 32) else c

/-- Embedding of `String.prototype.toLowerCase`. -/
def jsLower (s : String) : String := ⟨s.data.map jsLowerChar⟩

/-- Does the first list occur as a leading segment of the second? -/
def startsWith : List Char → List Char → Bool
  | [], _ => true
  | _ :: _, [] => false
  | a :: as, b :: bs => a = b && startsWith as bs

/-- Does `x` occur contiguously somewhere in the given list? -/
def infixAt (x : List Char) : List Char → Bool
  | [] => startsWith x []
  | b :: bs => startsWith x (b :: bs) || infixAt x bs

/-- Embedding of `e.includes(x)` of JavaScript. -/
def strIncludes (e x : String) : Bool := infixAt x.data e.data

/-- The `EnvName` union of the source: ten environment labels. -/
inductive EnvName where
  | space | desert | sea | forest | city | tundra | interior | mountain | ceremonial | battlefield
deriving DecidableEq, Repr

/-- The `Scene` interface of the source.  `cameraStyle` is a runtime string
(the TypeScript union is erased at runtime); the declared members are listed
in `knownCameraStyles`. -/
structure Scene where
  title : String
  timePeriod : String
  location : String
  oneLine : String
  narration : String
  visualKeywords : List String
  palette : List String
  environment : EnvName
  cameraStyle : String
deriving DecidableEq, Repr

/-- The six members of the `CameraStyle` union of the source. -/
def knownCameraStyles : List String :=
  ["dolly-in", "crane-up", "orbit-slow", "handheld", "locked-off", "push-pull"]

/-- The `Locale` union of the source (the name `Locale` is taken in the ambient library). -/
inductive LocaleTag where
  | enUS | esES
deriving DecidableEq, Repr

/-- Embedding of `generateScenesLocally` (the Scene Catalog Provider shipped
with the component): branches on substrings of the trimmed, lower-cased event
name and returns three literal scenes; the fallback branch interpolates the
raw event name into the titles. -/
def generateScenesLocally (eventName : String) : List Scene :=
  let e := jsLower (jsTrim eventName)
  if strIncludes e "moon" || strIncludes e "apollo" then
    [ { title := "Trans-Earth Injection"
      , timePeriod := "July 1969"
      , location := "Low lunar orbit"
      , oneLine := "Command Module arcs behind a silent crescent."
      , narration := "The spacecraft glides over a silver limb as starlight needles the void. Radio static crackles like distant surf."
      , visualKeywords := ["crescent moon", "command module", "starfield", "dark space"]
      , palette := ["#0b1220", "#d0d6e8", "#8aa2ff", "#ffffff"]
      , environment := .space
      , cameraStyle := "orbit-slow" }
    , { title := "The Eagle Descends"
      , timePeriod := "July 20, 1969"
      , location := "Mare Tranquillitatis"
      , oneLine := "LM kicks up plumes as it hovers."
      , narration := "Dust blooms like slow-moving fog. Engines hiss against the emptiness, and the surface crawls closer."
      , visualKeywords := ["lunar module", "dust plume", "surface craters", "harsh light"]
      , palette := ["#0b1220", "#c2b280", "#e0e0e0", "#ffffff"]
      , environment := .space
      , cameraStyle := "dolly-in" }
    , { title := "Footprints"
      , timePeriod := "July 20, 1969"
      , location := "Tranquility Base"
      , oneLine := "Boot prints stitch the regolith."
      , narration := "A boot presses down and the gray soil keeps its memory. The flag stiffens and winks in the sun."
      , visualKeywords := ["footprints", "American flag", "lander legs", "sun glare"]
      , palette := ["#1a1f2b", "#9a9a9a", "#d9d9d9", "#ff2e2e"]
      , environment := .space
      , cameraStyle := "locked-off" } ]
  else if strIncludes e "egypt" then
    [ { title := "Rising of the Pyramids"
      , timePeriod := "c. 2560 BCE"
      , location := "Giza Plateau"
      , oneLine := "Cut stones glow under copper sun."
      , narration := "Sand breathes heat. Ropes sing as blocks climb ramps; a thousand hands move in practiced rhythm."
      , visualKeywords := ["pyramid", "ramp", "workers", "sand haze"]
      , palette := ["#a26a2b", "#f2d3a2", "#6e4b1f", "#ffffff"]
      , environment := .desert
      , cameraStyle := "crane-up" }
    , { title := "Torchlit Corridor"
      , timePeriod := "Old Kingdom"
      , location := "Inner passage"
      , oneLine := "Hieroglyphs flicker alive."
      , narration := "Flame halos dance along carved gods. The air tastes like stone and resin."
      , visualKeywords := ["torch", "hieroglyphs", "narrow hallway", "smoke"]
      , palette := ["#140c06", "#f7a531", "#8c5a12", "#e7e2d1"]
      , environment := .interior
      , cameraStyle := "dolly-in" }
    , { title := "Solar Barge"
      , timePeriod := "Mythic time"
      , location := "Nile mirage"
      , oneLine := "A royal barge slides across gold."
      , narration := "River murmurs under reeds. Drums mark a steady heartbeat as sunlight scatters on ripples."
      , visualKeywords := ["barge", "reeds", "sun glitter", "oars"]
      , palette := ["#184c45", "#efe3b0", "#b8882d", "#0b132b"]
      , environment := .sea
      , cameraStyle := "orbit-slow" } ]
  else if strIncludes e "world war" || strIncludes e "wwii" || strIncludes e "ww2" then
    [ { title := "Storming the Beach"
      , timePeriod := "June 6, 1944"
      , location := "Normandy"
      , oneLine := "Gray surf meets steel and grit."
      , narration := "Engines roar, then sudden shallows. The ramp slams; boots churn water and sand under a sky of smoke."
      , visualKeywords := ["landing craft", "barriers", "smoke", "waves"]
      , palette := ["#2e3a45", "#9aa4ad", "#c9d1d5", "#2b2b2b"]
      , environment := .sea
      , cameraStyle := "handheld" }
    , { title := "City in Blackout"
      , timePeriod := "1940"
      , location := "London"
      , oneLine := "Sirens over dark rooftops."
      , narration := "Windows go blind as the sky pulses with searchlights. The ground hums with distant thunder."
      , visualKeywords := ["searchlights", "rooftops", "sirens", "sandbags"]
      , palette := ["#0b0f1a", "#e5e7eb", "#6b7280", "#111827"]
      , environment := .city
      , cameraStyle := "orbit-slow" }
    , { title := "The Signatures"
      , timePeriod := "1945"
      , location := "Aboard the USS Missouri"
      , oneLine := "Pens press history into paper."
      , narration := "Coats rustle, cameras click, and the war finally exhales. Ink dries like a sunrise."
      , visualKeywords := ["table", "documents", "medals", "flags"]
      , palette := ["#1f2937", "#9ca3af", "#d1d5db", "#e5e7eb"]
      , environment := .interior
      , cameraStyle := "locked-off" } ]
  else
    [ { title := "Prologue of " ++ eventName
      , timePeriod := ""
      , location := ""
      , oneLine := "A hush before history moves."
      , narration := "Crowds gather at the edge of change. Air tightens, breaths sync, and the first step arrives."
      , visualKeywords := ["crowd", "banners", "wide plaza", "dawn light"]
      , palette := ["#0a0a0a", "#dddddd", "#9c27b0", "#00bcd4"]
      , environment := .city
      , cameraStyle := "dolly-in" }
    , { title := "Turning Point of " ++ eventName
      , timePeriod := ""
      , location := ""
      , oneLine := "Momentum finds its voice."
      , narration := "The world leans forward; wheels, hooves, or engines catch and cascade into change."
      , visualKeywords := ["movement", "flags", "smoke", "structures"]
      , palette := ["#101827", "#fbbf24", "#60a5fa", "#fca5a5"]
      , environment := .battlefield
      , cameraStyle := "handheld" }
    , { title := "Epilogue of " ++ eventName
      , timePeriod := ""
      , location := ""
      , oneLine := "What remains becomes memory."
      , narration := "Footsteps fade; the air is different now. The scene keeps an imprint for those who return."
      , visualKeywords := ["empty street", "paper debris", "sunset", "shadows"]
      , palette := ["#111827", "#e5e7eb", "#f59e0b", "#ef4444"]
      , environment := .city
      , cameraStyle := "orbit-slow" } ]


/-- One call made to the Narration Sink (`window.speechSynthesis`). -/
inductive SinkEvent where
  | cancel
  | speakUtt (text : String) (lang : LocaleTag)
deriving DecidableEq, Repr

/-- Embedding of the `speak` helper: when narration is disabled it returns
before touching the sink; otherwise it cancels any in-flight utterance and
speaks `text ?? ""` in the given language.  The component is client-side, so
the `window`/`speechSynthesis` existence guards are taken to pass. -/
def speak (text : Option String) (enabled : Bool) (lang : LocaleTag) : List SinkEvent :=
  if enabled = false then []
  else [SinkEvent.cancel, SinkEvent.speakUtt (text.getD "") lang]

/-- The React state hooks of `HistoricalCinema3D`, gathered in one record.
`narration` is the narration-enabled flag, `quality` the 0/1/2 ordinal. -/
structure PlaybackState where
  eventName : String
  scenes : List Scene
  active : Nat
  playing : Bool
  autoplay : Bool
  narration : Bool
  quality : Nat
  loading : Bool
  locale : LocaleTag
deriving DecidableEq, Repr

/-- The initial values of the state hooks. -/
def initialState : PlaybackState :=
  { eventName := ""
  , scenes := []
  , active := 0
  , playing := false
  , autoplay := true
  , narration := true
  , quality := 1
  , loading := false
  , locale := .enUS }

/-- Embedding of `startShow`, parameterised by the Scene Catalog Provider
(the source hard-wires `generateScenesLocally`; the trailing comment of the
file invites swapping in another provider).  An empty trimmed name returns
before any state change or provider call.  Otherwise the provider result is
installed unconditionally, `active` is reset to 0, `playing` set, scene 0's
narration spoken, and the `finally` clause leaves `loading` false. -/
def startShowWith (provider : String → List Scene) (st : PlaybackState)
    (evtName : Option String) : PlaybackState × List SinkEvent :=
  let name := jsTrim (evtName.getD st.eventName)
  if name = "" then (st, [])
  else
    let localScenes := provider name
    ({ st with scenes := localScenes, active := 0, playing := true, loading := false }
    , speak ((localScenes.get? 0).map Scene.narration) st.narration st.locale)

/-- `startShow` exactly as shipped: the provider is `generateScenesLocally`. -/
def startShow (st : PlaybackState) (evtName : Option String) :
    PlaybackState × List SinkEvent :=
  startShowWith generateScenesLocally st evtName

/-- The SkipForward button handler (and the body of the autoplay interval):
`active := (active + 1) % scenes.length`, speaking the new scene's narration.
The button is only rendered while `scenes.length > 0`. -/
def nextScene (st : PlaybackState) : PlaybackState × List SinkEvent :=
  let idx := (st.active + 1) % st.scenes.length
  ({ st with active := idx }
  , speak ((st.scenes.get? idx).map Scene.narration) st.narration st.locale)

/-- The SkipBack button handler: `active := (active - 1 + scenes.length) %
scenes.length` computed in JavaScript number arithmetic, embedded over `Int`.
The button is only rendered while `scenes.length > 0`. -/
def previousScene (st : PlaybackState) : PlaybackState × List SinkEvent :=
  let idx := ((((st.active : Int) - 1 + st.scenes.length) % (st.scenes.length : Int))).toNat
  ({ st with active := idx }
  , speak ((st.scenes.get? idx).map Scene.narration) st.narration st.locale)

/-- The interval period of the autoplay `useEffect`, in milliseconds. -/
def autoplayPeriod : Nat := 6800

/-- The dependency list of the autoplay `useEffect`:
`[playing, autoplay, scenes, narration, locale]`. -/
def effectDeps (ps : PlaybackState) : Bool × Bool × List Scene × Bool × LocaleTag :=
  (ps.playing, ps.autoplay, ps.scenes, ps.narration, ps.locale)

/-- Re-running the autoplay effect: it early-returns (no interval) unless
`playing && autoplay && scenes.length > 0`, otherwise arms a fresh interval
with the full period. -/
def rearm (ps : PlaybackState) : Option Nat :=
  if ps.playing ∧ ps.autoplay ∧ 0 < ps.scenes.length then some autoplayPeriod else none

/-- Component state plus the autoplay interval: `timer = some r` means an
interval is armed and fires in `r` milliseconds. -/
structure SysState where
  ps : PlaybackState
  timer : Option Nat
deriving DecidableEq, Repr

/-- The mounted component: initial hook values, no interval armed
(`playing` starts false, so the effect early-returns). -/
def sysInit : SysState := { ps := initialState, timer := none }

/-- The operations the surrounding UI and the clock can perform on the
component, one per event handler plus the passage of time. -/
inductive Op where
  | start (evtName : Option String)
  | typeTopic (s : String)
  | next
  | previous
  | togglePlay
  | seek (i : Nat)
  | setAutoplay (b : Bool)
  | setNarration (b : Bool)
  | setQuality (q : Nat)
  | setLocale (l : LocaleTag)
  | tick (dt : Nat)

/-- The plain state-hook updates performed by each handler (the autoplay
interval bookkeeping lives in `applyOp`).  Every handler other than those
routed through `speak` touches no sink. -/
def stepPS (st : PlaybackState) : Op → PlaybackState × List SinkEvent
  | .start n => startShow st n
  | .typeTopic s => ({ st with eventName := s }, [])
  | .next => nextScene st
  | .previous => previousScene st
  | .togglePlay => ({ st with playing := !st.playing }, [])
  | .seek i => ({ st with active := i }, [])
  | .setAutoplay b => ({ st with autoplay := b }, [])
  | .setNarration b => ({ st with narration := b }, [])
  | .setQuality q => ({ st with quality := q }, [])
  | .setLocale l => ({ st with locale := l }, [])
  | .tick _ => (st, [])

/-- One step of the component under React semantics.  After a handler runs,
the autoplay effect is torn down and re-run iff its dependency list changed;
a successful `startShow` always installs a fresh scenes array (fresh identity),
so it always re-runs the effect.  A `tick dt` advances wall-clock time: an
armed interval either counts down or fires, and a firing runs the interval
callback (`nextScene` with the current closure state, which the dependency
list keeps in sync) and recurs with the full period. -/
def applyOp (s : SysState) (op : Op) : SysState × List SinkEvent :=
  match op with
  | .start n =>
      let r := startShow s.ps n
      if jsTrim (n.getD s.ps.eventName) = "" then ({ ps := r.1, timer := s.timer }, r.2)
      else ({ ps := r.1, timer := rearm r.1 }, r.2)
  | .tick dt =>
      match s.timer with
      | none => (s, [])
      | some r =>
          if dt < r then ({ s with timer := some (r - dt) }, [])
          else
            let nr := nextScene s.ps
            ({ ps := nr.1, timer := some autoplayPeriod }, nr.2)
  | op =>
      let r := stepPS s.ps op
      ({ ps := r.1
       , timer := if effectDeps r.1 = effectDeps s.ps then s.timer else rearm r.1 }, r.2)

/-- Run a list of operations, concatenating the sink calls they make. -/
def run (s : SysState) : List Op → SysState × List SinkEvent
  | [] => (s, [])
  | op :: ops =>
      let r := applyOp s op
      let r2 := run r.1 ops
      (r2.1, r.2 ++ r2.2)

/-- The index invariant of the spec: `0 ≤ active < len(sequence)` whenever the
sequence is non-empty (the lower bound is inherent in `Nat`). -/
def ActiveInv (s : SysState) : Prop :=
  0 < s.ps.scenes.length → s.ps.active < s.ps.scenes.length

/-- Which operation payloads the rendered UI can actually deliver: the seek
slider is an HTML range input with `min=0`, `max=Math.max(0, scenes.length-1)`,
so the browser only emits values in that range; every other handler's payload
is unconstrained. -/
def ValidOp (s : SysState) : Op → Prop
  | .seek i => i ≤ max 0 (s.ps.scenes.length - 1)
  | _ => True

/-- The autoplay interval is armed exactly while
`playing && autoplay && scenes.length > 0`. -/
def TInv (s : SysState) : Prop :=
  s.timer.isSome = (s.ps.playing && s.ps.autoplay && decide (0 < s.ps.scenes.length))

/-- Overwrite the quality field only, leaving every scheduling-relevant field
alone — used to compare runs that differ only in `quality`. -/
def setQ (s : SysState) (q : Nat) : SysState :=
  { ps := { s.ps with quality := q }, timer := s.timer }


/-- A camera pose: position, roll about z, and the last `lookAt` target
(`none` until some style calls `lookAt`).  Ephemeral, recomputed per tick. -/
structure Pose where
  x : ℝ
  y : ℝ
  z : ℝ
  rotZ : ℝ
  look : Option (ℝ × ℝ × ℝ)

/-- Componentwise `THREE.Vector3.lerp`: `a + (b - a) * alpha`. -/
noncomputable def lerp1 (a b k : ℝ) : ℝ := a + (b - a) * k

/-- `cam.position.lerp(new THREE.Vector3(tx, ty, tz), k)`. -/
noncomputable def lerpPose (cam : Pose) (tx ty tz k : ℝ) : Pose :=
  { cam with x := lerp1 cam.x tx k, y := lerp1 cam.y ty k, z := lerp1 cam.z tz k }

/-- Embedding of the `useFrame` body of `CameraRig`.  `mode` is the runtime
string the `switch` dispatches on; `t` is the elapsed clock time; `rng` is the
triple of `Math.random()` draws the handheld branch consumes; `cam` the
previous pose.  The final branch is the source's `case "orbit-slow": default:`
— every string not matched by the four earlier cases lands there. -/
noncomputable def cameraStep (mode : String) (t : ℝ) (rng : ℝ × ℝ × ℝ) (cam : Pose) : Pose :=
  let k : ℝ := 0.5
  if mode = "dolly-in" then
    lerpPose cam 0 1.5 (4 + Real.cos (t * 0.25) * 0.4) (k * 0.02)
  else if mode = "crane-up" then
    lerpPose cam (0.6 * Real.sin (t * 0.3)) (2 + Real.sin (t * 0.15)) 6 (k * 0.02)
  else if mode = "handheld" then
    { cam with
      x := cam.x + (rng.1 - 0.5) * 0.01
      y := cam.y + (rng.2.1 - 0.5) * 0.01
      rotZ := cam.rotZ + (rng.2.2 - 0.5) * 0.002 }
  else if mode = "locked-off" then
    let c := lerpPose cam 0 1.6 6 (k * 0.05)
    { c with look := some (0, 1, 0) }
  else
    { cam with
      x := Real.sin (t * 0.1) * 6
      z := Real.cos (t * 0.1) * 6
      y := 2
      look := some (0, 1.2, 0) }

/-- A concrete previous pose used to evaluate the trajectory function. -/
def pose0 : Pose := { x := 0, y := 0, z := 0, rotZ := 0, look := none }

/-- A concrete triple of random draws. -/
def rng0 : ℝ × ℝ × ℝ := (0, 0, 0)

/-- A fully populated scene except that its `cameraStyle` is the unknown
string "warp-speed" — the garbage-in case §6 of the spec discusses. -/
def warpScene : Scene :=
  { title := "Warp"
  , timePeriod := "2151"
  , location := "Sol system"
  , oneLine := "A hull shivers at the threshold."
  , narration := "Engines hum beyond their rated song."
  , visualKeywords := ["starfield"]
  , palette := ["#000000", "#111111", "#222222", "#333333"]
  , environment := .space
  , cameraStyle := "warp-speed" }


/-- Claim C9 fails on the code: at elapsed time 0, previous pose `pose0`, the
`push-pull` step equals the `orbit-slow` step (the switch has no `push-pull`
case, so it lands in the `default:` merged with `case "orbit-slow":`) and
differs from the `dolly-in` step — `push-pull` is not in the dolly-in family. -/
theorem C9_counterexample :
    cameraStep "push-pull" 0 rng0 pose0 = cameraStep "orbit-slow" 0 rng0 pose0 ∧
    cameraStep "push-pull" 0 rng0 pose0 ≠ cameraStep "dolly-in" 0 rng0 pose0 := by
  refine ⟨rfl, fun h => ?_⟩
  have h1 : (cameraStep "push-pull" 0 rng0 pose0).look = some ((0 : ℝ), (1.2 : ℝ), (0 : ℝ)) := rfl
  have h2 : (cameraStep "dolly-in" 0 rng0 pose0).look = none := rfl
  rw [h, h2] at h1
  exact Option.noConfusion h1

/-- Claim C9, amended: `push-pull` is not a case of the camera switch at all;
it falls through to the shared `default:`/`orbit-slow` branch, so for every
elapsed time, random draw, and previous pose its step coincides with the
`orbit-slow` step — time-parameterised orbit, not the dolly-in family. -/
theorem C9_push_pull_is_orbit_default :
    ∀ (t : ℝ) (rng : ℝ × ℝ × ℝ) (cam : Pose),
      cameraStep "push-pull" t rng cam = cameraStep "orbit-slow" t rng cam :=
  fun _ _ _ => rfl

/-- Claim C3 fails on the code: starting from the pristine component (empty
sequence) with a provider that returns one scene whose `cameraStyle` is the
unknown string "warp-speed", `startShow` succeeds and installs that scene
(the sequence does not remain empty), and the trajectory function maps the
unknown style through a silent default branch equal to `orbit-slow`. -/
theorem C3_counterexample :
    (startShowWith (fun _ => [warpScene]) initialState (some "atlantis")).1.scenes = [warpScene] ∧
    warpScene.cameraStyle = "warp-speed" ∧
    "warp-speed" ∉ knownCameraStyles ∧
    initialState.scenes = ([] : List Scene) ∧
    cameraStep "warp-speed" 0 rng0 pose0 = cameraStep "orbit-slow" 0 rng0 pose0 := by
  exact ⟨rfl, rfl, by decide, rfl, rfl⟩

/-- Claim C3, amended: `startShow` performs no `cameraStyle` validation — for
every provider, prior state, and topic that is non-empty after trimming, the
returned batch is installed verbatim (unknown styles included), and the Camera
Trajectory Function sends every string outside the five matched cases through
the silent `default:` branch, which behaves exactly as `orbit-slow`. -/
theorem C3_no_style_validation (provider : String → List Scene) (st : PlaybackState)
    (name : String) (h : jsTrim name ≠ "") :
    (startShowWith provider st (some name)).1.scenes = provider (jsTrim name) ∧
    (∀ mode : String,
      mode ∉ ["dolly-in", "crane-up", "handheld", "locked-off", "orbit-slow"] →
      ∀ (t : ℝ) (rng : ℝ × ℝ × ℝ) (cam : Pose),
        cameraStep mode t rng cam = cameraStep "orbit-slow" t rng cam) := by
  constructor
  · unfold startShowWith
    simp only [Option.getD]
    rw [if_neg h]
  · intro mode hm t rng cam
    simp only [List.mem_cons, List.mem_singleton, not_or] at hm
    obtain ⟨h1, h2, h3, h4, h5⟩ := hm
    show (if mode = "dolly-in" then _ else if mode = "crane-up" then _
          else if mode = "handheld" then _ else if mode = "locked-off" then _ else _) = _
    rw [if_neg h1, if_neg h2, if_neg h3, if_neg h4]
    rfl

/-- Witness for the amended claim C3 at a concrete provider, state and topic. -/
theorem C3_no_style_validation_witness :
    (startShowWith (fun _ => [warpScene]) initialState (some "atlantis")).1.scenes
        = (fun _ => [warpScene]) (jsTrim "atlantis") ∧
    (∀ mode : String,
      mode ∉ ["dolly-in", "crane-up", "handheld", "locked-off", "orbit-slow"] →
      ∀ (t : ℝ) (rng : ℝ × ℝ × ℝ) (cam : Pose),
        cameraStep mode t rng cam = cameraStep "orbit-slow" t rng cam) :=
  C3_no_style_validation (fun _ => [warpScene]) initialState "atlantis" (by decide)

/-- Claim C6: a topic that is empty after trimming makes `startShow` return
before any state change or provider call — the state is untouched, no sink
call happens, and the result does not depend on the provider at all. -/
theorem C6_empty_topic_noop (st : PlaybackState) (n : Option String)
    (h : jsTrim (n.getD st.eventName) = "") :
    startShow st n = (st, []) ∧
    ∀ p q : String → List Scene, startShowWith p st n = startShowWith q st n := by
  constructor
  · unfold startShow startShowWith
    rw [if_pos h]
  · intro p q
    unfold startShowWith
    rw [if_pos h, if_pos h]

/-- Witness for claim C6 at the whitespace-only topic of §8 of the spec. -/
theorem C6_empty_topic_noop_witness :
    startShow initialState (some "   ") = (initialState, []) ∧
    ∀ p q : String → List Scene,
      startShowWith p initialState (some "   ") = startShowWith q initialState (some "   ") :=
  C6_empty_topic_noop initialState (some "   ") (by decide)

/-- Every branch of the local provider returns a list of exactly three scenes. -/
theorem genScenes_shape (e : String) :
    ∃ a b c : Scene, generateScenesLocally e = [a, b, c] := by
  unfold generateScenesLocally
  dsimp only []
  split
  · exact ⟨_, _, _, rfl⟩
  split
  · exact ⟨_, _, _, rfl⟩
  split
  · exact ⟨_, _, _, rfl⟩
  · exact ⟨_, _, _, rfl⟩

/-- The local provider always returns exactly three scenes. -/
theorem genScenes_length (e : String) : (generateScenesLocally e).length = 3 := by
  obtain ⟨a, b, c, h⟩ := genScenes_shape e
  rw [h]
  rfl

/-- Every scene the local provider returns carries one of the six declared
camera styles and a four-colour palette. -/
theorem genScenes_fields (e : String) :
    ∀ sc ∈ generateScenesLocally e,
      sc.cameraStyle ∈ knownCameraStyles ∧ sc.palette.length = 4 := by
  unfold generateScenesLocally
  dsimp only []
  split
  · intro sc hsc
    simp only [List.mem_cons, List.not_mem_nil, or_false] at hsc
    rcases hsc with h | h | h <;> subst h <;> exact ⟨by decide, by decide⟩
  split
  · intro sc hsc
    simp only [List.mem_cons, List.not_mem_nil, or_false] at hsc
    rcases hsc with h | h | h <;> subst h <;> exact ⟨by decide, by decide⟩
  split
  · intro sc hsc
    simp only [List.mem_cons, List.not_mem_nil, or_false] at hsc
    rcases hsc with h | h | h <;> subst h <;> exact ⟨by decide, by decide⟩
  · intro sc hsc
    simp only [List.mem_cons, List.not_mem_nil, or_false] at hsc
    rcases hsc with h | h | h
    · subst h
      exact ⟨show "dolly-in" ∈ knownCameraStyles by decide, rfl⟩
    · subst h
      exact ⟨show "handheld" ∈ knownCameraStyles by decide, rfl⟩
    · subst h
      exact ⟨show "orbit-slow" ∈ knownCameraStyles by decide, rfl⟩

/-- On a topic that is non-empty after trimming, `startShow` reduces to the
install-and-speak pair. -/
theorem startShow_unfold (st : PlaybackState) (name : String) (h : jsTrim name ≠ "") :
    startShow st (some name) =
      ({ st with scenes := generateScenesLocally (jsTrim name), active := 0
               , playing := true, loading := false }
      , speak (((generateScenesLocally (jsTrim name)).get? 0).map Scene.narration)
          st.narration st.locale) := by
  unfold startShow startShowWith
  simp only [Option.getD]
  rw [if_neg h]

/-- Claim C1: on any topic that is non-empty after trimming, `startShow`
installs the provider's returned sequence, resets `active` to 0 whatever it
was, sets `playing`, leaves `loading` false, and — exactly when narration is
enabled — cancels the sink and speaks scene 0's narration in the current
locale. -/
theorem C1_startShow_success (st : PlaybackState) (name : String)
    (h : jsTrim name ≠ "") :
    (startShow st (some name)).1.scenes = generateScenesLocally (jsTrim name) ∧
    (startShow st (some name)).1.active = 0 ∧
    (startShow st (some name)).1.playing = true ∧
    (startShow st (some name)).1.loading = false ∧
    ∃ s0 : Scene, (generateScenesLocally (jsTrim name)).get? 0 = some s0 ∧
      (st.narration = true →
        (startShow st (some name)).2 =
          [SinkEvent.cancel, SinkEvent.speakUtt s0.narration st.locale]) ∧
      (st.narration = false → (startShow st (some name)).2 = []) := by
  rw [startShow_unfold st name h]
  obtain ⟨a, b, c, hg⟩ := genScenes_shape (jsTrim name)
  rw [hg]
  refine ⟨rfl, rfl, rfl, rfl, a, rfl, ?_, ?_⟩
  · intro hn
    simp [speak, hn]
  · intro hn
    simp [speak, hn]

/-- Witness for claim C1: starting from `active = 7`, the topic
"Moon Landing" installs the moon sequence, resets the index, and speaks the
first narration. -/
theorem C1_startShow_success_witness :
    (startShow { initialState with active := 7 } (some "Moon Landing")).1.scenes
        = generateScenesLocally (jsTrim "Moon Landing") ∧
    (startShow { initialState with active := 7 } (some "Moon Landing")).1.active = 0 ∧
    (startShow { initialState with active := 7 } (some "Moon Landing")).1.playing = true ∧
    (startShow { initialState with active := 7 } (some "Moon Landing")).1.loading = false ∧
    ∃ s0 : Scene,
      (generateScenesLocally (jsTrim "Moon Landing")).get? 0 = some s0 ∧
      (({ initialState with active := 7 } : PlaybackState).narration = true →
        (startShow { initialState with active := 7 } (some "Moon Landing")).2 =
          [SinkEvent.cancel, SinkEvent.speakUtt s0.narration
            ({ initialState with active := 7 } : PlaybackState).locale]) ∧
      (({ initialState with active := 7 } : PlaybackState).narration = false →
        (startShow { initialState with active := 7 } (some "Moon Landing")).2 = []) :=
  C1_startShow_success { initialState with active := 7 } "Moon Landing" (by decide)

/-- Claim C10: for every event name the local provider returns exactly three
scenes, each with a declared camera style and a four-colour palette, so
`startShow` on any topic that is non-empty after trimming always succeeds —
it installs three scenes and starts playing; the `catch` branch has nothing
to catch. -/
theorem C10_provider_total (e : String) :
    (generateScenesLocally e).length = 3 ∧
    (∀ sc ∈ generateScenesLocally e,
      sc.cameraStyle ∈ knownCameraStyles ∧ sc.palette.length = 4) ∧
    (∀ (st : PlaybackState) (name : String), jsTrim name ≠ "" →
      (startShow st (some name)).1.scenes.length = 3 ∧
      (startShow st (some name)).1.playing = true) := by
  refine ⟨genScenes_length e, genScenes_fields e, ?_⟩
  intro st name h
  rw [startShow_unfold st name h]
  exact ⟨genScenes_length (jsTrim name), rfl⟩

/-- Witness for claim C10 at a topic hitting the fallback branch. -/
theorem C10_provider_total_witness :
    (generateScenesLocally "zzz").length = 3 ∧
    ((startShow initialState (some "zzz")).1.scenes.length = 3 ∧
     (startShow initialState (some "zzz")).1.playing = true) :=
  ⟨(C10_provider_total "zzz").1,
   (C10_provider_total "zzz").2.2 initialState "zzz" (by decide)⟩

/-- Claim C2: under the index invariant, the SkipForward handler computes
`(active + 1) mod len`, the SkipBack handler `(active - 1 + len) mod len`
(stated in its equivalent natural-number form), iterating `next` from index 0
reaches `N mod len` after `N` steps, and on a one-scene sequence `next`
re-activates the same scene and re-triggers its narration instead of being a
no-op. -/
theorem C2_next_previous_laws (st : PlaybackState) (h : st.active < st.scenes.length) :
    (nextScene st).1.active = (st.active + 1) % st.scenes.length ∧
    (previousScene st).1.active = (st.active + st.scenes.length - 1) % st.scenes.length ∧
    (st.active = 0 → ∀ N : Nat,
      ((fun s => (nextScene s).1)^[N] st).active = N % st.scenes.length) ∧
    (st.scenes.length = 1 →
      (nextScene st).1.active = st.active ∧
      (st.narration = true → (nextScene st).2 ≠ [])) := by
  have hlen : 0 < st.scenes.length := Nat.lt_of_le_of_lt (Nat.zero_le st.active) h
  refine ⟨rfl, ?_, ?_, ?_⟩
  · show ((((st.active : Int) - 1 + st.scenes.length) % (st.scenes.length : Int))).toNat
        = (st.active + st.scenes.length - 1) % st.scenes.length
    have h1 : ((st.active : Int) - 1 + st.scenes.length)
        = ((st.active + st.scenes.length - 1 : Nat) : Int) := by
      push_cast [Nat.cast_sub (by omega : 1 ≤ st.active + st.scenes.length)]
      ring
    rw [h1, ← Int.natCast_mod, Int.toNat_natCast]
  · intro h0 N
    have key : ∀ N : Nat,
        ((fun s => (nextScene s).1)^[N] st).scenes = st.scenes ∧
        ((fun s => (nextScene s).1)^[N] st).active = N % st.scenes.length := by
      intro N
      induction N with
      | zero =>
          exact ⟨rfl, by simp [h0]⟩
      | succ n ih =>
          rw [Function.iterate_succ_apply']
          constructor
          · show ((fun s => (nextScene s).1)^[n] st).scenes = st.scenes
            exact ih.1
          · show (((fun s => (nextScene s).1)^[n] st).active + 1)
                % ((fun s => (nextScene s).1)^[n] st).scenes.length
                = (n + 1) % st.scenes.length
            rw [ih.1, ih.2, Nat.mod_add_mod]
    exact (key N).2
  · intro h1
    have h0 : st.active = 0 := by omega
    constructor
    · show (st.active + 1) % st.scenes.length = st.active
      rw [h1, h0]
    · intro hn
      show speak _ st.narration st.locale ≠ []
      simp [speak, hn]

/-- Witness for claim C2 on a concrete one-scene sequence, iterating five
times. -/
theorem C2_next_previous_laws_witness :
    (nextScene { initialState with scenes := [warpScene], playing := true }).1.active
        = (({ initialState with scenes := [warpScene], playing := true } :
            PlaybackState).active + 1) % 1 ∧
    (previousScene { initialState with scenes := [warpScene], playing := true }).1.active
        = (({ initialState with scenes := [warpScene], playing := true } :
            PlaybackState).active + 1 - 1) % 1 ∧
    ((fun s => (nextScene s).1)^[5]
        { initialState with scenes := [warpScene], playing := true }).active = 5 % 1 ∧
    (nextScene { initialState with scenes := [warpScene], playing := true }).1.active
        = ({ initialState with scenes := [warpScene], playing := true } :
            PlaybackState).active ∧
    (nextScene { initialState with scenes := [warpScene], playing := true }).2 ≠ [] := by
  have h := C2_next_previous_laws
    { initialState with scenes := [warpScene], playing := true } (by decide)
  have h4 := h.2.2.2 rfl
  exact ⟨h.1, h.2.1, h.2.2.1 rfl 5, h4.1, h4.2 rfl⟩

/-- Claim C4 fails on the code: from a mid-show state (scenes installed,
playing, narration enabled, an utterance plausibly in flight), the narration
checkbox handler for unchecking runs `setNarration(false)` and nothing else —
it makes zero calls to the Narration Sink, not one cancel. -/
theorem C4_counterexample :
    (applyOp
      { ps := { initialState with scenes := generateScenesLocally "moon", playing := true }
      , timer := some autoplayPeriod }
      (Op.setNarration false)).2 = ([] : List SinkEvent) := rfl

/-- Claim C4, amended: disabling narration performs no Narration Sink call at
all — in particular no cancel, so an in-flight utterance plays out — but the
flag does flip, and while it is false every `speak` is a no-op, so no sink
call occurs on any activation (next, previous, start, or the autoplay firing)
until narration is re-enabled. -/
theorem C4_disable_is_silent (s : SysState) (st : PlaybackState)
    (h : st.narration = false) :
    (applyOp s (Op.setNarration false)).2 = [] ∧
    (applyOp s (Op.setNarration false)).1.ps.narration = false ∧
    (∀ (text : Option String) (lang : LocaleTag), speak text false lang = []) ∧
    (nextScene st).2 = [] ∧
    (previousScene st).2 = [] ∧
    (∀ n, (startShow st n).2 = []) ∧
    (∀ dt, (applyOp { ps := st, timer := some 0 } (Op.tick dt)).2 = []) := by
  refine ⟨rfl, rfl, fun _ _ => rfl, ?_, ?_, ?_, ?_⟩
  · show speak _ st.narration st.locale = []
    simp [speak, h]
  · show speak _ st.narration st.locale = []
    simp [speak, h]
  · intro n
    unfold startShow startShowWith
    dsimp only []
    split
    · rfl
    · show speak _ st.narration st.locale = []
      simp [speak, h]
  · intro dt
    show (nextScene st).2 = []
    show speak _ st.narration st.locale = []
    simp [speak, h]

/-- Witness for the amended claim C4 at a concrete mid-show state with
narration already off. -/
theorem C4_disable_is_silent_witness :
    (applyOp sysInit (Op.setNarration false)).2 = [] ∧
    (applyOp sysInit (Op.setNarration false)).1.ps.narration = false ∧
    (∀ (text : Option String) (lang : LocaleTag), speak text false lang = []) ∧
    (nextScene { initialState with narration := false }).2 = [] ∧
    (previousScene { initialState with narration := false }).2 = [] ∧
    (∀ n, (startShow { initialState with narration := false } n).2 = []) ∧
    (∀ dt, (applyOp { ps := { initialState with narration := false }, timer := some 0 }
      (Op.tick dt)).2 = []) :=
  C4_disable_is_silent sysInit { initialState with narration := false } rfl

/-- Claim C7: the index invariant `0 ≤ active < len(sequence)` (for non-empty
sequences) holds in the mounted component and is preserved by every operation
the UI or the clock can deliver — start, navigation, seek (within the range
the slider's min/max attributes allow the browser to emit), play toggling,
flag, quality and locale updates, and autoplay firings. -/
theorem C7_active_index_invariant :
    ActiveInv sysInit ∧
    ∀ (s : SysState) (op : Op), ActiveInv s → ValidOp s op → ActiveInv (applyOp s op).1 := by
  constructor
  · intro h
    exact absurd h (by decide)
  intro s op hI hV
  obtain ⟨ps, tm⟩ := s
  cases op with
  | start n =>
      dsimp only [applyOp]
      split
      · rename_i hname
        have h1 : (startShow ps n).1 = ps := by
          unfold startShow startShowWith
          dsimp only []
          rw [if_pos hname]
        intro hl
        rw [h1] at hl ⊢
        exact hI hl
      · rename_i hname
        have h1 : (startShow ps n).1 =
            { ps with scenes := generateScenesLocally (jsTrim (n.getD ps.eventName))
                    , active := 0, playing := true, loading := false } := by
          unfold startShow startShowWith
          dsimp only []
          rw [if_neg hname]
        intro hl
        rw [h1] at hl ⊢
        exact hl
  | typeTopic s' =>
      intro hl
      exact hI hl
  | next =>
      intro hl
      exact Nat.mod_lt _ hl
  | previous =>
      intro hl
      have hl' : (0 : Int) < (ps.scenes.length : Int) := by exact_mod_cast hl
      have h2 : ((ps.active : Int) - 1 + ps.scenes.length) % (ps.scenes.length : Int)
          < (ps.scenes.length : Int) := Int.emod_lt_of_pos _ hl'
      have h3 : 0 ≤ ((ps.active : Int) - 1 + ps.scenes.length) % (ps.scenes.length : Int) :=
        Int.emod_nonneg _ (by omega)
      show ((((ps.active : Int) - 1 + ps.scenes.length) % (ps.scenes.length : Int))).toNat
          < ps.scenes.length
      omega
  | togglePlay =>
      intro hl
      exact hI hl
  | seek i =>
      intro hl
      have hV' : i ≤ max 0 (ps.scenes.length - 1) := hV
      rw [Nat.max_eq_right (Nat.zero_le _)] at hV'
      have hl' : 0 < ps.scenes.length := hl
      show i < ps.scenes.length
      omega
  | setAutoplay b =>
      intro hl
      exact hI hl
  | setNarration b =>
      intro hl
      exact hI hl
  | setQuality q =>
      intro hl
      exact hI hl
  | setLocale l =>
      intro hl
      exact hI hl
  | tick dt =>
      cases tm with
      | none => exact hI
      | some r =>
          dsimp only [applyOp]
          split
          · intro hl
            exact hI hl
          · intro hl
            exact Nat.mod_lt _ hl

/-- Witness for claim C7: the invariant holds at mount and survives a seek on
a concrete one-scene show. -/
theorem C7_active_index_invariant_witness :
    ActiveInv sysInit ∧
    ActiveInv (applyOp
      { ps := { initialState with scenes := [warpScene], playing := true }
      , timer := some autoplayPeriod } (Op.seek 0)).1 :=
  ⟨C7_active_index_invariant.1,
   C7_active_index_invariant.2
     { ps := { initialState with scenes := [warpScene], playing := true }
     , timer := some autoplayPeriod } (Op.seek 0)
     (fun _ => Nat.one_pos) (Nat.zero_le _)⟩

/-- Re-running the autoplay effect arms an interval exactly when the guard
`playing && autoplay && scenes.length > 0` holds. -/
theorem rearm_isSome (ps : PlaybackState) :
    (rearm ps).isSome = (ps.playing && ps.autoplay && decide (0 < ps.scenes.length)) := by
  cases hp : ps.playing <;> cases ha : ps.autoplay <;> by_cases hl : 0 < ps.scenes.length <;>
    simp [rearm, hp, ha, hl]

/-- After any handler that re-arms on dependency change, the armed-iff-guard
property persists. -/
theorem TInv_wild (s : SysState) (ps' : PlaybackState) (hT : TInv s) :
    TInv { ps := ps'
         , timer := if effectDeps ps' = effectDeps s.ps then s.timer else rearm ps' } := by
  split
  · rename_i hdep
    have h1 : ps'.playing = s.ps.playing := congrArg (fun d => d.1) hdep
    have h2 : ps'.autoplay = s.ps.autoplay := congrArg (fun d => d.2.1) hdep
    have h3 : ps'.scenes = s.ps.scenes := congrArg (fun d => d.2.2.1) hdep
    show s.timer.isSome = (ps'.playing && ps'.autoplay && decide (0 < ps'.scenes.length))
    rw [h1, h2, h3]
    exact hT
  · show (rearm ps').isSome = _
    exact rearm_isSome ps'

/-- Claim C5: the autoplay scheduler is one recurring interval of fixed period
6800 ms.  It is armed exactly while `playing && autoplay && len(sequence) > 0`
(holds at mount, preserved by every operation); a disarmed clock tick changes
nothing; a firing advances the show by exactly the `next` transition (with its
narration) and recurs with the full period; any automatic advance implies the
guard held; turning autoplay off tears the interval down; turning it back on
while playing a non-empty show arms a fresh interval with the full period,
whatever remainder the old one had. -/
theorem C5_autoplay_scheduler :
    TInv sysInit ∧
    (∀ (s : SysState) (op : Op), TInv s → TInv (applyOp s op).1) ∧
    (∀ (s : SysState) (dt : Nat), s.timer = none → applyOp s (Op.tick dt) = (s, [])) ∧
    (∀ (s : SysState) (r dt : Nat), s.timer = some r → r ≤ dt →
      (applyOp s (Op.tick dt)).1.ps = (nextScene s.ps).1 ∧
      (applyOp s (Op.tick dt)).2 = (nextScene s.ps).2 ∧
      (applyOp s (Op.tick dt)).1.timer = some autoplayPeriod) ∧
    (∀ (s : SysState) (dt : Nat), TInv s → (applyOp s (Op.tick dt)).1.ps ≠ s.ps →
      s.ps.playing = true ∧ s.ps.autoplay = true ∧ 0 < s.ps.scenes.length) ∧
    (∀ s : SysState, s.ps.autoplay = true →
      (applyOp s (Op.setAutoplay false)).1.timer = none) ∧
    (∀ s : SysState, s.ps.autoplay = false → s.ps.playing = true →
      0 < s.ps.scenes.length →
      (applyOp s (Op.setAutoplay true)).1.timer = some autoplayPeriod) := by
  refine ⟨rfl, ?_, ?_, ?_, ?_, ?_, ?_⟩
  · intro s op hT
    obtain ⟨ps, tm⟩ := s
    cases op with
    | start n =>
        dsimp only [applyOp]
        split
        · rename_i hname
          have h1 : (startShow ps n).1 = ps := by
            unfold startShow startShowWith
            dsimp only []
            rw [if_pos hname]
          show TInv ⟨(startShow ps n).1, tm⟩
          rw [h1]
          exact hT
        · show (rearm (startShow ps n).1).isSome = _
          exact rearm_isSome _
    | typeTopic s' => exact TInv_wild ⟨ps, tm⟩ _ hT
    | next => exact TInv_wild ⟨ps, tm⟩ _ hT
    | previous => exact TInv_wild ⟨ps, tm⟩ _ hT
    | togglePlay => exact TInv_wild ⟨ps, tm⟩ _ hT
    | seek i => exact TInv_wild ⟨ps, tm⟩ _ hT
    | setAutoplay b => exact TInv_wild ⟨ps, tm⟩ _ hT
    | setNarration b => exact TInv_wild ⟨ps, tm⟩ _ hT
    | setQuality q => exact TInv_wild ⟨ps, tm⟩ _ hT
    | setLocale l => exact TInv_wild ⟨ps, tm⟩ _ hT
    | tick dt =>
        cases tm with
        | none => exact hT
        | some r =>
            dsimp only [applyOp]
            split
            · exact hT
            · exact hT
  · intro s dt h
    obtain ⟨ps, tm⟩ := s
    cases tm with
    | none => rfl
    | some r => exact Option.noConfusion h
  · intro s r dt hs hle
    obtain ⟨ps, tm⟩ := s
    cases tm with
    | none => exact Option.noConfusion hs
    | some r' =>
        have hr : r' = r := by
          injection hs
        subst hr
        dsimp only [applyOp]
        rw [if_neg (by omega : ¬ dt < r')]
        exact ⟨rfl, rfl, rfl⟩
  · intro s dt hT hne
    obtain ⟨ps, tm⟩ := s
    cases tm with
    | none => exact absurd rfl hne
    | some r =>
        have h' : (ps.playing && ps.autoplay && decide (0 < ps.scenes.length)) = true :=
          (hT : true = _).symm
        simp only [Bool.and_eq_true, decide_eq_true_eq] at h'
        exact ⟨h'.1.1, h'.1.2, h'.2⟩
  · intro s h
    obtain ⟨ps, tm⟩ := s
    have hc : ¬ (effectDeps { ps with autoplay := false } = effectDeps ps) := by
      intro hd
      have hm : (false : Bool) = ps.autoplay := congrArg (fun d => d.2.1) hd
      rw [h] at hm
      exact Bool.noConfusion hm
    dsimp only [applyOp, stepPS]
    rw [if_neg hc]
    simp [rearm]
  · intro s h hp hl
    obtain ⟨ps, tm⟩ := s
    have hp' : ps.playing = true := hp
    have hl' : 0 < ps.scenes.length := hl
    have hc : ¬ (effectDeps { ps with autoplay := true } = effectDeps ps) := by
      intro hd
      have hm : (true : Bool) = ps.autoplay := congrArg (fun d => d.2.1) hd
      rw [h] at hm
      exact Bool.noConfusion hm
    dsimp only [applyOp, stepPS]
    rw [if_neg hc]
    simp [rearm, hp', hl']

/-- Witness for claim C5 on concrete states: armed-iff-guard after a manual
advance, a disarmed tick is a no-op, a due firing advances and recurs with the
full period, an observed automatic advance implies the guard, unchecking
autoplay disarms, re-checking it arms a fresh full period. -/
theorem C5_autoplay_scheduler_witness :
    TInv (applyOp { ps := { initialState with scenes := [warpScene], playing := true }
                  , timer := some autoplayPeriod } Op.next).1 ∧
    applyOp sysInit (Op.tick 5) = (sysInit, []) ∧
    ((applyOp { ps := { initialState with scenes := [warpScene], playing := true }
              , timer := some autoplayPeriod } (Op.tick 7000)).1.ps
        = (nextScene { initialState with scenes := [warpScene], playing := true }).1 ∧
     (applyOp { ps := { initialState with scenes := [warpScene], playing := true }
              , timer := some autoplayPeriod } (Op.tick 7000)).2
        = (nextScene { initialState with scenes := [warpScene], playing := true }).2 ∧
     (applyOp { ps := { initialState with scenes := [warpScene], playing := true }
              , timer := some autoplayPeriod } (Op.tick 7000)).1.timer
        = some autoplayPeriod) ∧
    (({ ps := { initialState with scenes := generateScenesLocally "zzz", playing := true }
      , timer := some 10 } : SysState).ps.playing = true ∧
     ({ ps := { initialState with scenes := generateScenesLocally "zzz", playing := true }
      , timer := some 10 } : SysState).ps.autoplay = true ∧
     0 < ({ ps := { initialState with scenes := generateScenesLocally "zzz", playing := true }
          , timer := some 10 } : SysState).ps.scenes.length) ∧
    (applyOp { ps := { initialState with scenes := [warpScene], playing := true }
             , timer := some autoplayPeriod } (Op.setAutoplay false)).1.timer = none ∧
    (applyOp
      { ps := { initialState with scenes := [warpScene], playing := true, autoplay := false }
      , timer := none } (Op.setAutoplay true)).1.timer = some autoplayPeriod :=
  ⟨C5_autoplay_scheduler.2.1
      { ps := { initialState with scenes := [warpScene], playing := true }
      , timer := some autoplayPeriod } Op.next rfl
  , C5_autoplay_scheduler.2.2.1 sysInit 5 rfl
  , C5_autoplay_scheduler.2.2.2.1
      { ps := { initialState with scenes := [warpScene], playing := true }
      , timer := some autoplayPeriod } autoplayPeriod 7000 rfl (by decide)
  , C5_autoplay_scheduler.2.2.2.2.1
      { ps := { initialState with scenes := generateScenesLocally "zzz", playing := true }
      , timer := some 10 } 10 rfl (by decide)
  , C5_autoplay_scheduler.2.2.2.2.2.1
      { ps := { initialState with scenes := [warpScene], playing := true }
      , timer := some autoplayPeriod } rfl
  , C5_autoplay_scheduler.2.2.2.2.2.2
      { ps := { initialState with scenes := [warpScene], playing := true, autoplay := false }
      , timer := none } rfl rfl (by decide)⟩

/-- One step reads nothing from `quality`: starting from a state that differs
only in `quality`, any operation yields a state differing at most in
`quality` and the very same sink calls. -/
theorem applyOp_setQ (s : SysState) (q : Nat) (op : Op) :
    ∃ q' : Nat, applyOp (setQ s q) op = (setQ (applyOp s op).1 q', (applyOp s op).2) := by
  obtain ⟨ps, tm⟩ := s
  cases op with
  | start n =>
      refine ⟨q, ?_⟩
      unfold applyOp startShow startShowWith setQ
      dsimp only []
      split
      · rfl
      · rfl
  | tick dt =>
      refine ⟨q, ?_⟩
      cases tm with
      | none => rfl
      | some r =>
          unfold applyOp setQ
          dsimp only []
          split
          · rfl
          · rfl
  | typeTopic s' => exact ⟨q, rfl⟩
  | next => exact ⟨q, rfl⟩
  | previous => exact ⟨q, rfl⟩
  | togglePlay => exact ⟨q, rfl⟩
  | seek i => exact ⟨q, rfl⟩
  | setAutoplay b => exact ⟨q, rfl⟩
  | setNarration b => exact ⟨q, rfl⟩
  | setQuality qv => exact ⟨qv, rfl⟩
  | setLocale l => exact ⟨q, rfl⟩

/-- Whole runs read nothing from `quality`. -/
theorem run_setQ (ops : List Op) : ∀ (s : SysState) (q : Nat),
    ∃ q' : Nat, run (setQ s q) ops = (setQ (run s ops).1 q', (run s ops).2) := by
  induction ops with
  | nil =>
      intro s q
      exact ⟨q, rfl⟩
  | cons op ops ih =>
      intro s q
      obtain ⟨q1, h1⟩ := applyOp_setQ s q op
      obtain ⟨q2, h2⟩ := ih (applyOp s op).1 q1
      refine ⟨q2, ?_⟩
      show (let r := applyOp (setQ s q) op
            let r2 := run r.1 ops
            (r2.1, r.2 ++ r2.2)) =
          (setQ (run s (op :: ops)).1 q2, (run s (op :: ops)).2)
      rw [h1]
      dsimp only []
      rw [h2]
      rfl

/-- Claim C8: two runs of the component that start from states differing only
in `quality` and receive the same operations and clock ticks make identical
sink calls and evolve identically in every scheduling-relevant field —
sequence, active index, playing, autoplay, narration flag, locale, topic,
loading, and the autoplay interval.  `quality` reaches only rendering
(`PostFX` multisampling/bloom and `KeyLights` intensity), never scheduling. -/
theorem C8_quality_noninterference (ps : PlaybackState) (tm : Option Nat)
    (q1 q2 : Nat) (ops : List Op) :
    (run ⟨{ ps with quality := q1 }, tm⟩ ops).2
        = (run ⟨{ ps with quality := q2 }, tm⟩ ops).2 ∧
    (run ⟨{ ps with quality := q1 }, tm⟩ ops).1.ps.scenes
        = (run ⟨{ ps with quality := q2 }, tm⟩ ops).1.ps.scenes ∧
    (run ⟨{ ps with quality := q1 }, tm⟩ ops).1.ps.active
        = (run ⟨{ ps with quality := q2 }, tm⟩ ops).1.ps.active ∧
    (run ⟨{ ps with quality := q1 }, tm⟩ ops).1.ps.playing
        = (run ⟨{ ps with quality := q2 }, tm⟩ ops).1.ps.playing ∧
    (run ⟨{ ps with quality := q1 }, tm⟩ ops).1.ps.autoplay
        = (run ⟨{ ps with quality := q2 }, tm⟩ ops).1.ps.autoplay ∧
    (run ⟨{ ps with quality := q1 }, tm⟩ ops).1.ps.narration
        = (run ⟨{ ps with quality := q2 }, tm⟩ ops).1.ps.narration ∧
    (run ⟨{ ps with quality := q1 }, tm⟩ ops).1.ps.locale
        = (run ⟨{ ps with quality := q2 }, tm⟩ ops).1.ps.locale ∧
    (run ⟨{ ps with quality := q1 }, tm⟩ ops).1.ps.eventName
        = (run ⟨{ ps with quality := q2 }, tm⟩ ops).1.ps.eventName ∧
    (run ⟨{ ps with quality := q1 }, tm⟩ ops).1.ps.loading
        = (run ⟨{ ps with quality := q2 }, tm⟩ ops).1.ps.loading ∧
    (run ⟨{ ps with quality := q1 }, tm⟩ ops).1.timer
        = (run ⟨{ ps with quality := q2 }, tm⟩ ops).1.timer := by
  obtain ⟨a1, h1⟩ := run_setQ ops ⟨ps, tm⟩ q1
  obtain ⟨a2, h2⟩ := run_setQ ops ⟨ps, tm⟩ q2
  have e1 : (⟨{ ps with quality := q1 }, tm⟩ : SysState) = setQ ⟨ps, tm⟩ q1 := rfl
  have e2 : (⟨{ ps with quality := q2 }, tm⟩ : SysState) = setQ ⟨ps, tm⟩ q2 := rfl
  rw [e1, e2, h1, h2]
  exact ⟨rfl, rfl, rfl, rfl, rfl, rfl, rfl, rfl, rfl, rfl⟩
